import Mathlib

/-!
Verification of the scrape-web-summary service (src/main.rs).

The development shallowly embeds the pipeline of the service: URL
validation (url::Url::from_str), headless rendering to a PDF,
per-page text extraction, whitespace tokenization with truncation to
3000 tokens, and the chat-completion client.  External calls
(browser, pdfium, HTTP transport) are modelled by environment records
carrying the outcome of each call in the order the source performs
them; Rust panics (Vec indexing out of bounds, Result::unwrap on Err)
are modelled by a dedicated PanicOr constructor, since they abort the
handler without producing a response.
-/

deriving instance DecidableEq for Except

/-- Outcome of running code that may panic: either a value or a panic
(Rust index-out-of-bounds or unwrap of an Err aborts the task and no
HTTP response is produced). -/
inductive PanicOr (α : Type) where
  | ok : α → PanicOr α
  | panicked : PanicOr α
deriving DecidableEq

/-- ASCII whitespace, as Rust char::is_ascii_whitespace: space,
horizontal tab, line feed, form feed, carriage return. -/
def isAsciiWhitespace (c : Char) : Bool :=
  c == ' ' || c == '\t' || c == '\n' || c == '\x0c' || c == '\r'

/-- Accumulator worker for the whitespace splitter.  The accumulator
holds the characters of the current token in reverse order. -/
def tokenizeAux : List Char → List Char → List (List Char)
  | [], acc => if acc = [] then [] else [acc.reverse]
  | c :: rest, acc =>
    if isAsciiWhitespace c then
      if acc = [] then tokenizeAux rest []
      else acc.reverse :: tokenizeAux rest []
    else tokenizeAux rest (c :: acc)

/-- Rust str::split_ascii_whitespace: split on runs of ASCII
whitespace, yielding no empty tokens. -/
def tokenize (l : List Char) : List (List Char) :=
  tokenizeAux l []

/-- Join character lists with a single space between consecutive
entries, as Rust slice::join(" ") does at the character level. -/
def joinSpace : List (List Char) → List Char
  | [] => []
  | [t] => t
  | t :: ts => t ++ ' ' :: joinSpace ts

/-- Rust Vec::join(" ") on strings. -/
def joinWithSpace (l : List String) : String :=
  String.mk (joinSpace (l.map String.data))

/-- The whitespace tokens of a string, as Rust
split_ascii_whitespace().collect::<Vec<-str>>(). -/
def tokens (s : String) : List String :=
  (tokenize s.data).map String.mk

/-- The bounding step of get_summary_private (src/main.rs lines
237-241, inline in the source): split on ASCII whitespace, truncate
the token vector to maxTokens entries, rejoin with single spaces. -/
def bound (inp : String) (maxTokens : Nat) : String :=
  joinWithSpace (((tokenize inp.data).take maxTokens).map String.mk)

/-! ### URL validation

The handler calls url::Url::from_str, an external dependency
implementing the WHATWG URL Standard.  The fragment modelled here
covers input trimming, scheme parsing, the authority/host requirement
of the special schemes (http, https, ws, wss, ftp), the optional host
of file, and the opaque paths of non-special schemes.  Percent
decoding, IDNA host normalization and IPv6 address syntax are not
modelled: hosts containing forbidden code points (including percent
and brackets) are rejected outright. -/

/-- A parsed URL, reduced to the components the handler could observe:
the (lowercased) scheme and the host if one is present. -/
structure UrlRec where
  scheme : String
  host : Option String
deriving DecidableEq

/-- C0 control characters and space, trimmed from both ends of the
input by the WHATWG parser. -/
def isC0OrSpace (c : Char) : Bool :=
  c.toNat ≤ 32

/-- ASCII tab and newlines, removed from anywhere in the input by the
WHATWG parser. -/
def isTabOrNewline (c : Char) : Bool :=
  c == '\t' || c == '\n' || c == '\r'

/-- Input preprocessing of the WHATWG basic URL parser: trim C0
controls and spaces from both ends, then strip tabs and newlines. -/
def urlPreprocess (l : List Char) : List Char :=
  (((l.dropWhile isC0OrSpace).reverse.dropWhile isC0OrSpace).reverse).filter
    (fun c => !isTabOrNewline c)

def isAsciiAlpha (c : Char) : Bool :=
  ('a' ≤ c && c ≤ 'z') || ('A' ≤ c && c ≤ 'Z')

def isAsciiDigit (c : Char) : Bool :=
  '0' ≤ c && c ≤ '9'

/-- Characters allowed after the first character of a scheme. -/
def isSchemeChar (c : Char) : Bool :=
  isAsciiAlpha c || isAsciiDigit c || c == '+' || c == '-' || c == '.'

/-- Scheme scanner: consumes scheme characters until a colon.  The
accumulator holds the scheme read so far, reversed.  Returns the
scheme and the remainder after the colon, or none when the input is
not of scheme-then-colon shape (the parser then fails with
RelativeUrlWithoutBase, since from_str supplies no base URL). -/
def schemeLoop : List Char → List Char → Option (List Char × List Char)
  | _, [] => none
  | acc, c :: rest =>
    if c == ':' then some (acc.reverse, rest)
    else if isSchemeChar c then schemeLoop (c :: acc) rest
    else none

/-- Parse the scheme of a preprocessed URL string: an ASCII alpha
followed by scheme characters, terminated by a colon. -/
def parseScheme : List Char → Option (List Char × List Char)
  | [] => none
  | c :: rest => if isAsciiAlpha c then schemeLoop [c] rest else none

/-- The special schemes of the WHATWG standard that require a
non-empty host (file is special too but its host is optional). -/
def specialSchemes : List (List Char) :=
  ["http".data, "https".data, "ws".data, "wss".data, "ftp".data]

/-- Code points that end the host of a URL or are forbidden inside
one.  Percent and brackets are rejected because percent decoding and
IPv6 hosts are outside the modelled fragment. -/
def forbiddenHostChar (c : Char) : Bool :=
  c.toNat = 0 || c == '\t' || c == '\n' || c == '\r' || c == ' ' ||
  c == '#' || c == '/' || c == ':' || c == '<' || c == '>' || c == '?' ||
  c == '@' || c == '[' || c == '\\' || c == ']' || c == '^' ||
  c == '|' || c == '%'

/-- The part of an authority after the last at sign: the host-port
part, past any userinfo. -/
def afterLastAt (l : List Char) : List Char :=
  (l.reverse.takeWhile (fun c => !(c == '@'))).reverse

/-- Numeric value of a digit run (used for the port bound). -/
def portNat (l : List Char) : Nat :=
  l.foldl (fun n c => n * 10 + (c.toNat - 48)) 0

/-- Authority parsing for the special schemes: skip the slashes after
the colon, read the authority up to a path, query or fragment
delimiter, drop userinfo, split off an optional port.  The host must
be non-empty and free of forbidden code points; a non-empty port must
be digits below 2^16. -/
def specialAfterScheme (l : List Char) : Option (List Char) :=
  let l1 := l.dropWhile (fun c => c == '/' || c == '\\')
  let auth := l1.takeWhile (fun c => !(c == '/' || c == '\\' || c == '?' || c == '#'))
  let hostport := afterLastAt auth
  let host := (hostport.takeWhile (fun c => !(c == ':'))).map Char.toLower
  let port := hostport.dropWhile (fun c => !(c == ':'))
  if host = [] then none
  else if host.any forbiddenHostChar then none
  else match port with
    | [] => some host
    | _ :: pd =>
      if pd = [] || (pd.all isAsciiDigit && portNat pd < 65536) then some host
      else none

/-- Authority parsing for the file scheme: a host is present only
after an explicit double slash, may be empty, and localhost is
normalized away. -/
def fileAfterScheme : List Char → Option (Option (List Char))
  | '/' :: '/' :: rest =>
    let host := rest.takeWhile (fun c => !(c == '/' || c == '\\' || c == '?' || c == '#'))
    if host.any forbiddenHostChar then none
    else if host = [] || host = "localhost".data then some none
    else some (some (host.map Char.toLower))
  | _ => some none

/-- Parsing after the scheme of a non-special scheme: a double slash
introduces an (opaque) authority whose host may be empty; anything
else is an opaque path carrying no host at all, which is how
mailto-style URLs parse. -/
def nonSpecialAfterScheme : List Char → Option (Option (List Char))
  | '/' :: '/' :: rest =>
    let auth := rest.takeWhile (fun c => !(c == '/' || c == '?' || c == '#'))
    let hostport := afterLastAt auth
    let host := hostport.takeWhile (fun c => !(c == ':'))
    let port := hostport.dropWhile (fun c => !(c == ':'))
    if host.any forbiddenHostChar then none
    else match port with
      | [] => if host = [] then some none else some (some host)
      | _ :: pd =>
        if pd = [] || (pd.all isAsciiDigit && portNat pd < 65536) then
          if host = [] then some none else some (some host)
        else none
  | _ => some none

/-- Model of url::Url::from_str (WHATWG URL Standard, no base URL):
none is a parse error, taken by the handler as the invalid-URL case.
Restricted to the fragment described above. -/
def urlParse (s : String) : Option UrlRec :=
  match parseScheme (urlPreprocess s.data) with
  | none => none
  | some (schRaw, rest) =>
    let sch := schRaw.map Char.toLower
    if sch ∈ specialSchemes then
      match specialAfterScheme rest with
      | none => none
      | some h => some ⟨String.mk sch, some (String.mk h)⟩
    else if sch = "file".data then
      match fileAfterScheme rest with
      | none => none
      | some ho => some ⟨String.mk sch, ho.map String.mk⟩
    else
      match nonSpecialAfterScheme rest with
      | none => none
      | some ho => some ⟨String.mk sch, ho.map String.mk⟩

/-! ### Headless rendering and text extraction (get_text_headless) -/

/-- Outcomes of the external calls made by get_text_headless, in
source order.  pageTexts holds the result of page.text() for each
page of the loaded PDF, in document order. -/
structure RenderEnv where
  launch : Except Unit Unit
  newTab : Except Unit Unit
  navigate : Except Unit Unit
  waitNavigated : Except Unit Unit
  printToPdf : Except Unit (List Nat)
  bindAtPath : Except Unit Unit
  bindSystem : Except Unit Unit
  loadPdf : Except Unit Unit
  pageTexts : List (Except Unit String)
deriving DecidableEq

/-- pages().iter().map(|page| page.text().unwrap().all()): collect the
text of every page in order; an Err from page.text() makes unwrap
panic, aborting the whole extraction. -/
def extractPages : List (Except Unit String) → PanicOr (List String)
  | [] => .ok []
  | Except.error _ :: _ => .panicked
  | Except.ok t :: rest =>
    match extractPages rest with
    | .ok ts => .ok (t :: ts)
    | .panicked => .panicked

/-- get_text_headless (src/main.rs lines 104-162): launch browser,
open tab, navigate; the result of wait_until_navigated is discarded
by the source (no question mark operator), so the model never reads
it; print to PDF, bind pdfium at the configured path falling back to
the system library, load the PDF, then join the page texts with a
single space. -/
def get_text_headless (env : RenderEnv) : PanicOr (Except Unit String) :=
  match env.launch with
  | .error e => .ok (.error e)
  | .ok _ =>
    match env.newTab with
    | .error e => .ok (.error e)
    | .ok _ =>
      match env.navigate with
      | .error e => .ok (.error e)
      | .ok _ =>
        match env.printToPdf with
        | .error e => .ok (.error e)
        | .ok _pdf =>
          match (match env.bindAtPath with
                 | .ok u => Except.ok u
                 | .error _ => env.bindSystem) with
          | .error e => .ok (.error e)
          | .ok _ =>
            match env.loadPdf with
            | .error e => .ok (.error e)
            | .ok _ =>
              match extractPages env.pageTexts with
              | .panicked => .panicked
              | .ok texts => .ok (.ok (joinWithSpace texts))

/-! ### Chat completion client (chat, custom_gpt, get_summary_private) -/

/-- A role-tagged chat message. -/
structure Message where
  role : String
  content : String
deriving DecidableEq

/-- One choice of the provider response (deserialized ChatResponse
choice: index, message, finish_reason). -/
structure Choice where
  choiceIdx : Nat
  message : Message
  finish_reason : String
deriving DecidableEq

/-- The deserialized provider response body. -/
structure ChatResponse where
  id : String
  choices : List Choice
deriving DecidableEq

/-- Outcomes of the external steps of chat, in source order: the
OPENAI_API_TOKEN environment variable, serde_json::to_vec of the
request parameters, the HTTPS send, and serde_json::from_slice of the
response body. -/
structure ChatEnv where
  apiToken : Option String
  serialize : Except Unit Unit
  send : Except Unit Unit
  parseResponse : Except Unit ChatResponse
deriving DecidableEq

/-- The two-message prompt built by custom_gpt: a system message and a
user message, in that order. -/
def promptMessages (sys_prompt u_prompt : String) : List Message :=
  [⟨"system", sys_prompt⟩, ⟨"user", u_prompt⟩]

/-- chat (src/main.rs lines 178-216): read the credential, serialize
the request, send it, deserialize the response, then read
choices[0] - indexing which panics when choices is empty.  Every Err
before that point propagates via the question mark operator.  The
message list and max token count do not influence the control flow;
they are recorded for the callers. -/
def chat (env : ChatEnv) (message_obj : List Message) (m_token : Nat) :
    PanicOr (Except Unit (String × String)) :=
  match env.apiToken with
  | none => .ok (.error ())
  | some _ =>
    match env.serialize with
    | .error _ => .ok (.error ())
    | .ok _ =>
      match env.send with
      | .error _ => .ok (.error ())
      | .ok _ =>
        match env.parseResponse with
        | .error _ => .ok (.error ())
        | .ok res =>
          match res.choices with
          | [] => .panicked
          | c :: _ => .ok (.ok (c.message.content, c.finish_reason))

/-- custom_gpt (src/main.rs lines 164-176): build the system and user
messages, call chat, collapse Ok to Some and Err to None; a panic in
chat propagates. -/
def custom_gpt (env : ChatEnv) (sys_prompt u_prompt : String) (m_token : Nat) :
    PanicOr (Option String) :=
  match chat env (promptMessages sys_prompt u_prompt) m_token with
  | .ok (.ok (res, _count)) => .ok (some res)
  | .ok (.error _) => .ok none
  | .panicked => .panicked

/-- The fixed system prompt of get_summary_private (note the source
text: "new reporter", not "news reporter"). -/
def sys_prompt_text : String :=
  "You\x27re a new reporter AI."

/-- The fixed user prompt template of get_summary_private, with the
news body embedded. -/
def user_prompt_text (news_body : String) : String :=
  "Given the news body text: " ++ news_body ++
  ", which may include some irrelevant information, identify the key arguments and the article\x27s conclusion. From these important elements, construct a succinct summary that encapsulates its news value, disregarding any unnecessary details."

/-- get_summary_private (src/main.rs lines 237-247): bound the input
to 3000 whitespace tokens and call custom_gpt with the fixed prompts
and 512 max tokens. -/
def get_summary_private (env : ChatEnv) (inp : String) : PanicOr (Option String) :=
  custom_gpt env sys_prompt_text (user_prompt_text (bound inp 3000)) 512

/-- The exact message list get_summary_private hands to chat for a
given input. -/
def messagesSent (inp : String) : List Message :=
  promptMessages sys_prompt_text (user_prompt_text (bound inp 3000))

/-! ### The POST /api handler (handle_post) -/

/-- The environment of one request: the url field of the posted JSON
body and the outcomes of the external calls of the two stages. -/
structure PipelineEnv where
  urlInput : String
  render : RenderEnv
  chatEnv : ChatEnv
deriving DecidableEq

/-- An HTTP response as built by the handler. -/
structure HttpResponse where
  status : Nat
  body : String
deriving DecidableEq

/-- handle_post (src/main.rs lines 39-72) with an invocation trace:
the response (or panic), whether get_text_headless was invoked, and
whether get_summary_private was invoked. -/
def handle_post_trace (env : PipelineEnv) : PanicOr HttpResponse × Bool × Bool :=
  match urlParse env.urlInput with
  | none => (.ok ⟨200, "parse target url failure"⟩, false, false)
  | some _ =>
    match get_text_headless env.render with
    | .panicked => (.panicked, true, false)
    | .ok (.error _) => (.ok ⟨200, "failed to get text from webpage"⟩, true, false)
    | .ok (.ok res) =>
      match get_summary_private env.chatEnv res with
      | .panicked => (.panicked, true, true)
      | .ok none => (.ok ⟨200, "failed to create summary"⟩, true, true)
      | .ok (some summary) => (.ok ⟨200, summary⟩, true, true)

/-- handle_post: the response part of the traced handler. -/
def handle_post (env : PipelineEnv) : PanicOr HttpResponse :=
  (handle_post_trace env).1

/-! ### Concrete environments used by witnesses and counterexamples -/

/-- A render environment in which every external call succeeds and
the loaded PDF has the given page texts. -/
def renderEnvOk (texts : List String) : RenderEnv :=
  ⟨.ok (), .ok (), .ok (), .ok (), .ok [1, 2, 3], .ok (), .ok (), .ok (), texts.map Except.ok⟩

/-- A render environment in which navigation fails. -/
def renderEnvNavFail : RenderEnv :=
  ⟨.ok (), .ok (), .error (), .ok (), .ok [1, 2, 3], .ok (), .ok (), .ok (), [.ok "page"]⟩

/-- A render environment in which the PDF loads with two pages and the
second page errors producing its text. -/
def renderEnvPageFail : RenderEnv :=
  ⟨.ok (), .ok (), .ok (), .ok (), .ok [1, 2, 3], .ok (), .ok (), .ok (),
   [.ok "alpha", .error ()]⟩

/-- A chat environment in which everything succeeds and the response
carries one choice. -/
def chatEnvOk : ChatEnv :=
  ⟨some "sk-test", .ok (), .ok (),
   .ok ⟨"chatcmpl-1", [⟨0, ⟨"assistant", "the summary"⟩, "stop"⟩]⟩⟩

/-- A chat environment in which the credential is missing. -/
def chatEnvNoToken : ChatEnv :=
  ⟨none, .ok (), .ok (),
   .ok ⟨"chatcmpl-1", [⟨0, ⟨"assistant", "the summary"⟩, "stop"⟩]⟩⟩

/-- A chat environment in which the response parses with an empty
choices array. -/
def chatEnvEmptyChoices : ChatEnv :=
  ⟨some "sk-test", .ok (), .ok (), .ok ⟨"chatcmpl-1", []⟩⟩

/-- A request whose url field does not parse. -/
def envBadUrl : PipelineEnv :=
  ⟨"not a url", renderEnvOk ["alpha", "beta"], chatEnvOk⟩

/-- A request with a valid URL whose navigation fails. -/
def envRenderErr : PipelineEnv :=
  ⟨"https://example.com/a", renderEnvNavFail, chatEnvOk⟩

/-- A request with a valid URL, a successful render, and a missing
credential. -/
def envSummaryFail : PipelineEnv :=
  ⟨"https://example.com/a", renderEnvOk ["alpha", "beta"], chatEnvNoToken⟩

/-- A request with a valid URL and successful render whose chat
response has an empty choices array. -/
def envPanicChoices : PipelineEnv :=
  ⟨"https://example.com/a", renderEnvOk ["page one", "page two"], chatEnvEmptyChoices⟩

/-- A request with a valid URL whose PDF has a page that errors
producing its text. -/
def envPageFail : PipelineEnv :=
  ⟨"https://example.com/a", renderEnvPageFail, chatEnvOk⟩

/-- A request in which every stage succeeds. -/
def envAllOk : PipelineEnv :=
  ⟨"https://example.com/a", renderEnvOk ["alpha", "beta"], chatEnvOk⟩

/-- A render environment in which the navigation wait fails and the
print call fails. -/
def renderEnvPrintFail : RenderEnv :=
  ⟨.ok (), .ok (), .ok (), .error (), .error (), .ok (), .ok (), .ok (), [.ok "page"]⟩

/-- The collapse custom_gpt applies to the result of chat: Ok becomes
Some of the content, Err becomes None, a panic propagates. -/
def chatCollapse : PanicOr (Except Unit (String × String)) → PanicOr (Option String)
  | .ok (.ok p) => .ok (some p.1)
  | .ok (.error _) => .ok none
  | .panicked => .panicked

/-! ### Lemmas about the tokenizer -/

lemma data_mk (l : List Char) : (String.mk l).data = l := rfl

lemma map_data_map_mk (l : List (List Char)) :
    (l.map String.mk).map String.data = l := by
  induction l with
  | nil => rfl
  | cons a l ih => simp only [List.map_cons, data_mk, ih]

lemma joinWithSpace_map_mk (l : List (List Char)) :
    (joinWithSpace (l.map String.mk)).data = joinSpace l := by
  show joinSpace ((l.map String.mk).map String.data) = joinSpace l
  rw [map_data_map_mk]

lemma tokenizeAux_sound :
    ∀ (l acc : List Char), (∀ c ∈ acc, isAsciiWhitespace c = false) →
      ∀ t ∈ tokenizeAux l acc, t ≠ [] ∧ ∀ c ∈ t, isAsciiWhitespace c = false := by
  intro l
  induction l with
  | nil =>
    intro acc hacc t ht
    by_cases hA : acc = []
    · simp [tokenizeAux, hA] at ht
    · simp [tokenizeAux, hA] at ht
      subst ht
      refine ⟨by simpa using hA, ?_⟩
      intro c hc
      exact hacc c (List.mem_reverse.mp hc)
  | cons c rest ih =>
    intro acc hacc t ht
    cases hw : isAsciiWhitespace c with
    | true =>
      by_cases hA : acc = []
      · simp [tokenizeAux, hw, hA] at ht
        exact ih [] (by simp) t ht
      · simp [tokenizeAux, hw, hA] at ht
        rcases ht with ht | ht
        · subst ht
          refine ⟨by simpa using hA, ?_⟩
          intro x hx
          exact hacc x (List.mem_reverse.mp hx)
        · exact ih [] (by simp) t ht
    | false =>
      simp [tokenizeAux, hw] at ht
      refine ih (c :: acc) ?_ t ht
      intro x hx
      rcases List.mem_cons.mp hx with h | h
      · rw [h]; exact hw
      · exact hacc x h

lemma tokenizeAux_token (rest' : List Char) :
    ∀ (t acc : List Char), (∀ c ∈ t, isAsciiWhitespace c = false) →
      acc ≠ [] ∨ t ≠ [] →
      tokenizeAux (t ++ ' ' :: rest') acc = (acc.reverse ++ t) :: tokenizeAux rest' [] := by
  intro t
  induction t with
  | nil =>
    intro acc _ hne
    have hA : acc ≠ [] := by
      rcases hne with h | h
      · exact h
      · exact absurd rfl h
    simp [tokenizeAux, isAsciiWhitespace, hA]
  | cons c t2 ih =>
    intro acc h _
    have hc : isAsciiWhitespace c = false := h c (by simp)
    simp only [List.cons_append]
    rw [show tokenizeAux (c :: (t2 ++ ' ' :: rest')) acc
          = tokenizeAux (t2 ++ ' ' :: rest') (c :: acc) from by simp [tokenizeAux, hc]]
    rw [ih (c :: acc) (fun x hx => h x (List.mem_cons_of_mem _ hx)) (Or.inl (by simp))]
    simp

lemma tokenizeAux_last :
    ∀ (t acc : List Char), (∀ c ∈ t, isAsciiWhitespace c = false) →
      acc ≠ [] ∨ t ≠ [] →
      tokenizeAux t acc = [acc.reverse ++ t] := by
  intro t
  induction t with
  | nil =>
    intro acc _ hne
    have hA : acc ≠ [] := by
      rcases hne with h | h
      · exact h
      · exact absurd rfl h
    simp [tokenizeAux, hA]
  | cons c t2 ih =>
    intro acc h _
    have hc : isAsciiWhitespace c = false := h c (by simp)
    rw [show tokenizeAux (c :: t2) acc = tokenizeAux t2 (c :: acc) from by
          simp [tokenizeAux, hc]]
    rw [ih (c :: acc) (fun x hx => h x (List.mem_cons_of_mem _ hx)) (Or.inl (by simp))]
    simp

lemma joinSpace_cons_cons (t t' : List Char) (ts : List (List Char)) :
    joinSpace (t :: t' :: ts) = t ++ ' ' :: joinSpace (t' :: ts) := by
  simp [joinSpace]

lemma tokenize_joinSpace :
    ∀ ts : List (List Char),
      (∀ t ∈ ts, t ≠ [] ∧ ∀ c ∈ t, isAsciiWhitespace c = false) →
      tokenize (joinSpace ts) = ts := by
  intro ts
  induction ts with
  | nil => intro _; rfl
  | cons t ts ih =>
    intro h
    have ht := h t (by simp)
    cases ts with
    | nil =>
      show tokenizeAux (joinSpace [t]) [] = [t]
      rw [show joinSpace [t] = t from rfl]
      rw [tokenizeAux_last t [] ht.2 (Or.inr ht.1)]
      simp
    | cons t' ts2 =>
      rw [joinSpace_cons_cons]
      show tokenizeAux (t ++ ' ' :: joinSpace (t' :: ts2)) [] = t :: t' :: ts2
      rw [tokenizeAux_token _ t [] ht.2 (Or.inr ht.1)]
      rw [show tokenizeAux (joinSpace (t' :: ts2)) [] = tokenize (joinSpace (t' :: ts2)) from rfl]
      rw [ih (fun x hx => h x (List.mem_cons_of_mem _ hx))]
      simp

lemma tokenizeAux_all_ws :
    ∀ l : List Char, (∀ c ∈ l, isAsciiWhitespace c = true) → tokenizeAux l [] = [] := by
  intro l
  induction l with
  | nil => intro _; rfl
  | cons c rest ih =>
    intro h
    have hc := h c (by simp)
    simp only [tokenizeAux, hc, if_true, if_pos rfl]
    exact ih (fun x hx => h x (List.mem_cons_of_mem _ hx))

lemma bound_data (t : String) (n : Nat) :
    (bound t n).data = joinSpace ((tokenize t.data).take n) :=
  joinWithSpace_map_mk ((tokenize t.data).take n)

lemma tokenize_bound (t : String) (n : Nat) :
    tokenize (bound t n).data = (tokenize t.data).take n := by
  rw [bound_data]
  apply tokenize_joinSpace
  intro tk htk
  exact tokenizeAux_sound t.data [] (by simp) tk (List.take_subset n _ htk)

lemma tokens_bound (t : String) (n : Nat) :
    tokens (bound t n) = (tokens t).take n := by
  show (tokenize (bound t n).data).map String.mk = (tokens t).take n
  rw [tokenize_bound, List.map_take]
  rfl

/-- C5: For every input text t with whitespace-token count k, the
bounding step (split on ASCII whitespace, truncate, rejoin) produces
a string whose token count is min(k, 3000) and whose tokens are
exactly the first min(k, 3000) tokens of t in their original order,
with no tokens invented. -/
theorem bound_keeps_first_tokens (t : String) :
    tokens (bound t 3000) = (tokens t).take (min (tokens t).length 3000) ∧
    (tokens (bound t 3000)).length = min (tokens t).length 3000 := by
  have h1 := tokens_bound t 3000
  constructor
  · rw [h1]
    rcases Nat.le_total (tokens t).length 3000 with h | h
    · rw [min_eq_left h, List.take_of_length_le h, List.take_of_length_le (le_refl _)]
    · rw [min_eq_right h]
  · rw [h1, List.length_take]
    exact min_comm _ _

/-- C6: The bounding operation is idempotent: applying bound twice
with the same budget equals applying it once. -/
theorem bound_idempotent (t : String) (n : Nat) :
    bound (bound t n) n = bound t n := by
  show joinWithSpace (((tokenize (bound t n).data).take n).map String.mk) = bound t n
  rw [tokenize_bound, List.take_take]
  simp only [min_self]
  rfl

/-! ### Lemmas about joined tokens (for the normalization claim) -/

lemma joinSpace_ne_nil :
    ∀ ts : List (List Char), ts ≠ [] → (∀ t ∈ ts, t ≠ []) → joinSpace ts ≠ [] := by
  intro ts h0 h
  cases ts with
  | nil => exact absurd rfl h0
  | cons t ts' =>
    cases ts' with
    | nil => simpa [joinSpace] using h t (by simp)
    | cons t' ts2 =>
      rw [joinSpace_cons_cons]
      simp

lemma head_opt_mem {α : Type} {l : List α} {a : α} (h : l.head? = some a) : a ∈ l := by
  cases l with
  | nil => simp at h
  | cons b l' =>
    simp at h
    rw [← h]
    simp

lemma getLast_opt_mem {α : Type} :
    ∀ (l : List α) (a : α), l.getLast? = some a → a ∈ l := by
  intro l
  induction l with
  | nil => intro a h; simp at h
  | cons b l' ih =>
    intro a h
    cases l' with
    | nil =>
      rw [List.getLast?_singleton] at h
      rw [← Option.some_inj.mp h]
      simp
    | cons c l2 =>
      rw [List.getLast?_cons_cons] at h
      exact List.mem_cons_of_mem _ (ih a h)

lemma getLast_opt_cons_of_ne_nil {α : Type} (a : α) (l : List α) (h : l ≠ []) :
    (a :: l).getLast? = l.getLast? := by
  cases l with
  | nil => exact absurd rfl h
  | cons b l' => exact List.getLast?_cons_cons

lemma getLast_opt_append_right {α : Type} (l₁ : List α) :
    ∀ l₂ : List α, l₂ ≠ [] → (l₁ ++ l₂).getLast? = l₂.getLast? := by
  induction l₁ with
  | nil => intro l₂ _; simp
  | cons a l ih =>
    intro l₂ h
    have h2 : l ++ l₂ ≠ [] := fun hc => h (List.append_eq_nil.mp hc).2
    rw [List.cons_append, getLast_opt_cons_of_ne_nil a _ h2, ih l₂ h]

lemma joinSpace_head (t : List Char) (ts : List (List Char)) (ht : t ≠ []) :
    (joinSpace (t :: ts)).head? = t.head? := by
  cases ts with
  | nil => rfl
  | cons t' ts2 =>
    rw [joinSpace_cons_cons]
    cases t with
    | nil => exact absurd rfl ht
    | cons c tc => rfl

lemma joinSpace_getLast :
    ∀ ts : List (List Char), ts ≠ [] → (∀ t ∈ ts, t ≠ []) →
      ∃ tk ∈ ts, (joinSpace ts).getLast? = tk.getLast? := by
  intro ts
  induction ts with
  | nil => intro h0 _; exact absurd rfl h0
  | cons t ts' ih =>
    intro _ h
    cases ts' with
    | nil => exact ⟨t, by simp, rfl⟩
    | cons t' ts2 =>
      have hns : joinSpace (t' :: ts2) ≠ [] :=
        joinSpace_ne_nil _ (by simp) (fun x hx => h x (List.mem_cons_of_mem _ hx))
      obtain ⟨tk, htk, he⟩ := ih (by simp) (fun x hx => h x (List.mem_cons_of_mem _ hx))
      refine ⟨tk, List.mem_cons_of_mem _ htk, ?_⟩
      rw [joinSpace_cons_cons, getLast_opt_append_right _ _ (by simp),
          getLast_opt_cons_of_ne_nil _ _ hns, he]

/-- C9: For every input string, the bounded text is whitespace
normalized: its first and its last character are not ASCII
whitespace, the string equals the single-space join of its own
tokens, and an input containing no non-whitespace characters yields
the empty string. -/
theorem bound_whitespace_normalized (t : String) :
    ((bound t 3000).data.head?.all (fun c => !isAsciiWhitespace c)) = true ∧
    ((bound t 3000).data.getLast?.all (fun c => !isAsciiWhitespace c)) = true ∧
    bound t 3000 = joinWithSpace (tokens (bound t 3000)) ∧
    ((∀ c ∈ t.data, isAsciiWhitespace c = true) → bound t 3000 = "") := by
  have hsound : ∀ tk ∈ (tokenize t.data).take 3000,
      tk ≠ [] ∧ ∀ c ∈ tk, isAsciiWhitespace c = false :=
    fun tk htk => tokenizeAux_sound t.data [] (by simp) tk (List.take_subset _ _ htk)
  have hdata := bound_data t 3000
  refine ⟨?_, ?_, ?_, ?_⟩
  · rw [hdata]
    cases hTS : (tokenize t.data).take 3000 with
    | nil => rfl
    | cons tk rest =>
      rw [joinSpace_head tk rest (hsound tk (by rw [hTS]; simp)).1]
      cases htk' : tk.head? with
      | none => rfl
      | some c =>
        have hc := (hsound tk (by rw [hTS]; simp)).2 c (head_opt_mem htk')
        simp [Option.all, hc]
  · rw [hdata]
    cases hTS : (tokenize t.data).take 3000 with
    | nil => rfl
    | cons tk rest =>
      obtain ⟨tk', htk', he⟩ := joinSpace_getLast (tk :: rest) (by simp)
        (fun x hx => (hsound x (by rw [hTS]; exact hx)).1)
      rw [he]
      cases hl : tk'.getLast? with
      | none => rfl
      | some c =>
        have hc := (hsound tk' (by rw [hTS]; exact htk')).2 c (getLast_opt_mem _ _ hl)
        simp [Option.all, hc]
  · rw [show tokens (bound t 3000) = ((tokenize t.data).take 3000).map String.mk from by
        show (tokenize (bound t 3000).data).map String.mk = _
        rw [tokenize_bound]]
    rfl
  · intro hws
    have h0 : tokenize t.data = [] := tokenizeAux_all_ws t.data hws
    show joinWithSpace (((tokenize t.data).take 3000).map String.mk) = ""
    rw [h0]
    rfl

/-- C9 witness: at the all-whitespace input " \t " the bounded text is
empty, and at "a  b" the first character of the bounded text is not
whitespace. -/
theorem bound_whitespace_normalized_witness :
    (∀ c ∈ (" \t " : String).data, isAsciiWhitespace c = true) ∧
    bound " \t " 3000 = "" ∧
    ((bound "a  b" 3000).data.head?.all (fun c => !isAsciiWhitespace c)) = true :=
  ⟨by decide, (bound_whitespace_normalized " \t ").2.2.2 (by decide),
   (bound_whitespace_normalized "a  b").1⟩

/-! ### URL validation claims -/

/-- C7 counterexample: the input "mailto:rms@example.net" lacks a
host, yet url::Url::from_str accepts it (the url crate documents this
very example), so the validator classifies it Valid; the claim that
every input lacking a host is Invalid is false. -/
theorem urlParse_accepts_hostless_mailto :
    urlParse "mailto:rms@example.net" = some ⟨"mailto", none⟩ ∧
    urlParse "mailto:rms@example.net" ≠ none := by
  exact ⟨by decide, by decide⟩

/-- C7 amended: a scheme is required - every input on which scheme
parsing fails (in particular every string lacking a scheme) is
Invalid, and well-formed absolute URLs such as https://example.com/a
are Valid - but a host is not required: non-special schemes such as
mailto parse successfully with no host and are accepted. -/
theorem urlParse_scheme_required :
    (∀ s : String, parseScheme (urlPreprocess s.data) = none → urlParse s = none) ∧
    urlParse "https://example.com/a" = some ⟨"https", some "example.com"⟩ ∧
    urlParse "not a url" = none ∧
    urlParse "mailto:rms@example.net" = some ⟨"mailto", none⟩ := by
  refine ⟨?_, by decide, by decide, by decide⟩
  intro s h
  simp [urlParse, h]

/-- C7 witness: the scheme-required half applied at the concrete
input "ht tp://x", whose scheme parse fails. -/
theorem urlParse_scheme_required_witness :
    parseScheme (urlPreprocess ("ht tp://x" : String).data) = none ∧
    urlParse "ht tp://x" = none :=
  ⟨by decide, urlParse_scheme_required.1 "ht tp://x" (by decide)⟩

/-! ### Pipeline claims -/

/-- C1 counterexample: at a request with a valid URL and a successful
render whose chat response parses with an empty choices array, the
handler panics (choices[0] is out of bounds), so it does not respond
200 with one of the four bodies. -/
theorem handle_post_panics_on_empty_choices :
    handle_post envPanicChoices = PanicOr.panicked ∧
    handle_post envPanicChoices ≠ PanicOr.ok ⟨200, "failed to create summary"⟩ := by
  exact ⟨by decide, by decide⟩

/-- C1 amended: on every request on which the handler does not panic
(panics arise only from page-text extraction and empty-choices
indexing), it responds 200 with a body that is the summary text or
one of the three fixed failure strings. -/
theorem handle_post_ok_body_cases (env : PipelineEnv)
    (h : handle_post env ≠ PanicOr.panicked) :
    ∃ b, handle_post env = PanicOr.ok ⟨200, b⟩ ∧
      (b = "parse target url failure" ∨ b = "failed to get text from webpage" ∨
       b = "failed to create summary" ∨
       ∃ t, get_text_headless env.render = PanicOr.ok (Except.ok t) ∧
            get_summary_private env.chatEnv t = PanicOr.ok (some b)) := by
  cases hu : urlParse env.urlInput with
  | none =>
    exact ⟨"parse target url failure",
           by simp [handle_post, handle_post_trace, hu], Or.inl rfl⟩
  | some u =>
    cases hr : get_text_headless env.render with
    | panicked => exact absurd (by simp [handle_post, handle_post_trace, hu, hr]) h
    | ok r =>
      cases r with
      | error e =>
        exact ⟨"failed to get text from webpage",
               by simp [handle_post, handle_post_trace, hu, hr], Or.inr (Or.inl rfl)⟩
      | ok txt =>
        cases hs : get_summary_private env.chatEnv txt with
        | panicked =>
          exact absurd (by simp [handle_post, handle_post_trace, hu, hr, hs]) h
        | ok so =>
          cases so with
          | none =>
            exact ⟨"failed to create summary",
                   by simp [handle_post, handle_post_trace, hu, hr, hs],
                   Or.inr (Or.inr (Or.inl rfl))⟩
          | some summary =>
            exact ⟨summary,
                   by simp [handle_post, handle_post_trace, hu, hr, hs],
                   Or.inr (Or.inr (Or.inr ⟨txt, rfl, hs⟩))⟩

/-- C1 witness: the amended theorem applied at the concrete
invalid-URL request. -/
theorem handle_post_ok_body_cases_witness :
    handle_post envBadUrl ≠ PanicOr.panicked ∧
    (∃ b, handle_post envBadUrl = PanicOr.ok ⟨200, b⟩ ∧
      (b = "parse target url failure" ∨ b = "failed to get text from webpage" ∨
       b = "failed to create summary" ∨
       ∃ t, get_text_headless envBadUrl.render = PanicOr.ok (Except.ok t) ∧
            get_summary_private envBadUrl.chatEnv t = PanicOr.ok (some b))) :=
  ⟨by decide, handle_post_ok_body_cases envBadUrl (by decide)⟩

/-- C2: when the url string fails to parse, the pipeline
short-circuits: the response is 200 with body exactly
"parse target url failure", and neither get_text_headless nor
get_summary_private is invoked. -/
theorem invalid_url_short_circuits (env : PipelineEnv)
    (h : urlParse env.urlInput = none) :
    handle_post_trace env = (PanicOr.ok ⟨200, "parse target url failure"⟩, false, false) := by
  simp [handle_post_trace, h]

/-- C2 witness: the short-circuit at the concrete request with url
field "not a url". -/
theorem invalid_url_short_circuits_witness :
    urlParse envBadUrl.urlInput = none ∧
    handle_post_trace envBadUrl = (PanicOr.ok ⟨200, "parse target url failure"⟩, false, false) :=
  ⟨by decide, invalid_url_short_circuits envBadUrl (by decide)⟩

/-- C3 counterexample: on a parsed response with an empty choices
array the summarization client does not return None - it panics on
the out-of-bounds indexing of choices[0]. -/
theorem summary_client_panics_on_empty_choices :
    get_summary_private chatEnvEmptyChoices "some page text" = PanicOr.panicked ∧
    get_summary_private chatEnvEmptyChoices "some page text" ≠ PanicOr.ok none := by
  exact ⟨by decide, by decide⟩

/-- C3 amended: the summarization client returns None on a missing
credential, a serialization failure, a transport failure, or a
non-parseable response body (but panics on an empty choices array);
and whenever the pipeline reaches it and it returns None, the
response body is exactly "failed to create summary". -/
theorem summary_client_none_on_failures :
    (∀ (env : ChatEnv) (inp : String),
      (env.apiToken = none ∨ env.serialize = Except.error () ∨
       env.send = Except.error () ∨ env.parseResponse = Except.error ()) →
      get_summary_private env inp = PanicOr.ok none) ∧
    (∀ (env : PipelineEnv) (t : String), urlParse env.urlInput ≠ none →
      get_text_headless env.render = PanicOr.ok (Except.ok t) →
      get_summary_private env.chatEnv t = PanicOr.ok none →
      handle_post env = PanicOr.ok ⟨200, "failed to create summary"⟩) := by
  constructor
  · intro env inp h
    obtain ⟨tok, ser, snd, prs⟩ := env
    dsimp only at h
    rcases h with h | h | h | h
    · subst h; rfl
    · subst h; cases tok <;> rfl
    · subst h; cases tok <;> cases ser <;> rfl
    · subst h; cases tok <;> cases ser <;> cases snd <;> rfl
  · intro env t hu hr hs
    cases h' : urlParse env.urlInput with
    | none => exact absurd h' hu
    | some u => simp [handle_post, handle_post_trace, h', hr, hs]

/-- C3 witness: the None outcome at a concrete missing-credential
environment, and the resulting response at a concrete request with a
successful render. -/
theorem summary_client_none_on_failures_witness :
    get_summary_private chatEnvNoToken "hello world" = PanicOr.ok none ∧
    handle_post envSummaryFail = PanicOr.ok ⟨200, "failed to create summary"⟩ :=
  ⟨summary_client_none_on_failures.1 chatEnvNoToken "hello world" (Or.inl (by decide)),
   summary_client_none_on_failures.2 envSummaryFail "alpha beta"
     (by decide) (by decide) (by decide)⟩

/-- C4 counterexample: at a request whose PDF has a page that errors
producing its text, the extraction aborts via a panic and the handler
panics, so the caller never receives the body
"failed to get text from webpage". -/
theorem page_text_failure_panics :
    get_text_headless renderEnvPageFail = PanicOr.panicked ∧
    handle_post envPageFail = PanicOr.panicked ∧
    handle_post envPageFail ≠ PanicOr.ok ⟨200, "failed to get text from webpage"⟩ := by
  exact ⟨by decide, by decide, by decide⟩

/-- C4 amended: a failure to extract the text of any single page
aborts the whole extraction (no silent skip of that page), but as a
panic that propagates through the handler without producing any
response; the body "failed to get text from webpage" is produced
exactly when get_text_headless returns an error (browser launch, tab,
navigation, print, library binding or document load failures). -/
theorem extract_aborts_render_errors_surface :
    (∀ pages : List (Except Unit String), Except.error () ∈ pages →
      extractPages pages = PanicOr.panicked) ∧
    (∀ env : PipelineEnv, urlParse env.urlInput ≠ none →
      get_text_headless env.render = PanicOr.panicked →
      handle_post env = PanicOr.panicked) ∧
    (∀ env : PipelineEnv, urlParse env.urlInput ≠ none →
      get_text_headless env.render = PanicOr.ok (Except.error ()) →
      handle_post env = PanicOr.ok ⟨200, "failed to get text from webpage"⟩) := by
  refine ⟨?_, ?_, ?_⟩
  · intro pages
    induction pages with
    | nil => intro hmem; simp at hmem
    | cons p rest ih =>
      intro hmem
      cases p with
      | error e => rfl
      | ok s =>
        have hm : Except.error () ∈ rest := by
          rcases List.mem_cons.mp hmem with h | h
          · simp at h
          · exact h
        simp [extractPages, ih hm]
  · intro env hu hp
    cases h' : urlParse env.urlInput with
    | none => exact absurd h' hu
    | some u => simp [handle_post, handle_post_trace, h', hp]
  · intro env hu hr
    cases h' : urlParse env.urlInput with
    | none => exact absurd h' hu
    | some u => simp [handle_post, handle_post_trace, h', hr]

/-- C4 witness: the three parts applied at concrete inputs - a page
list with a failing page, the panicking request, and a request whose
navigation fails. -/
theorem extract_aborts_render_errors_surface_witness :
    extractPages [Except.ok "alpha", Except.error ()] = PanicOr.panicked ∧
    handle_post envPageFail = PanicOr.panicked ∧
    handle_post envRenderErr = PanicOr.ok ⟨200, "failed to get text from webpage"⟩ :=
  ⟨extract_aborts_render_errors_surface.1 _ (by decide),
   extract_aborts_render_errors_surface.2.1 envPageFail (by decide) (by decide),
   extract_aborts_render_errors_surface.2.2 envRenderErr (by decide) (by decide)⟩

/-! ### Prompt construction and navigation wait claims -/

lemma custom_gpt_eq_collapse (env : ChatEnv) (s u : String) (m : Nat) :
    custom_gpt env s u m = chatCollapse (chat env (promptMessages s u) m) := by
  cases h : chat env (promptMessages s u) m with
  | panicked => simp [custom_gpt, h, chatCollapse]
  | ok r =>
    cases r with
    | error e => simp [custom_gpt, h, chatCollapse]
    | ok p =>
      cases p with
      | mk a b => simp [custom_gpt, h, chatCollapse]

/-- C8 counterexample: the system message the client constructs reads
"new reporter", not the claimed "news reporter". -/
theorem system_prompt_not_news :
    (messagesSent "x").head? = some ⟨"system", "You\x27re a new reporter AI."⟩ ∧
    ((messagesSent "x").map Message.content).head? ≠ some "You\x27re a news reporter AI." := by
  exact ⟨by decide, by decide⟩

/-- C8 amended: for every bounded text the client constructs exactly
two messages - a system message whose content is the fixed string
"You\x27re a new reporter AI." and a user message embedding the
bounded text (at most 3000 tokens) in the fixed template - and
get_summary_private is the collapse of chat applied to exactly that
message list, system message first. -/
theorem prompt_messages_structure :
    (∀ inp : String,
      messagesSent inp =
        [⟨"system", sys_prompt_text⟩, ⟨"user", user_prompt_text (bound inp 3000)⟩] ∧
      (messagesSent inp).map Message.role = ["system", "user"] ∧
      sys_prompt_text = "You\x27re a new reporter AI." ∧
      (tokens (bound inp 3000)).length ≤ 3000) ∧
    (∀ (env : ChatEnv) (inp : String),
      get_summary_private env inp = chatCollapse (chat env (messagesSent inp) 512)) := by
  constructor
  · intro inp
    refine ⟨rfl, rfl, rfl, ?_⟩
    rw [tokens_bound, List.length_take]
    exact min_le_left _ _
  · intro env inp
    exact custom_gpt_eq_collapse env sys_prompt_text (user_prompt_text (bound inp 3000)) 512

/-- C10: the result of wait_until_navigated is discarded: the render
result never depends on the wait outcome, and even when the wait
fails the pipeline proceeds to the print step (here a failing print
yields the render error, with the wait outcome left arbitrary). -/
theorem wait_result_ignored :
    (∀ (env : RenderEnv) (w : Except Unit Unit),
      get_text_headless { env with waitNavigated := w } = get_text_headless env) ∧
    (∀ env : RenderEnv, env.launch = Except.ok () → env.newTab = Except.ok () →
      env.navigate = Except.ok () → env.printToPdf = Except.error () →
      get_text_headless env = PanicOr.ok (Except.error ())) := by
  constructor
  · intro env w
    cases env
    rfl
  · intro env h1 h2 h3 h4
    obtain ⟨l, nt, nav, wn, pp, ba, bs, lp, pt⟩ := env
    dsimp only at h1 h2 h3 h4
    subst h1
    subst h2
    subst h3
    subst h4
    rfl

/-- C10 witness: at a concrete environment whose wait fails and whose
print fails, the render reaches the print step and returns its error,
and flipping the wait outcome leaves the result unchanged. -/
theorem wait_result_ignored_witness :
    get_text_headless renderEnvPrintFail = PanicOr.ok (Except.error ()) ∧
    get_text_headless { renderEnvPrintFail with waitNavigated := Except.ok () } =
      get_text_headless renderEnvPrintFail :=
  ⟨wait_result_ignored.2 renderEnvPrintFail (by decide) (by decide) (by decide) (by decide),
   wait_result_ignored.1 renderEnvPrintFail (Except.ok ())⟩
